import Mathlib

/-!
Verification of the canvas compositing and text-placement core of the
MemeHub application (src/index.tsx).

The compositor's module-level mutable variables (image, topText, bottomText,
fontSize, textColor, topTextPosition, bottomTextPosition, isDragging,
draggingText, dragStartX, dragStartY, canvas.width, canvas.height, and the
canvas pixel contents) are gathered into an explicit `State` record, and each
handler becomes a pure function `State → State`.  Pixel quantities are modelled
as exact rationals (the JS code computes in IEEE doubles; the spec only asks
for equalities "within floating rounding").  The 2D rendering context is
modelled by a list of draw commands (`surface`); `ctx.measureText(t).width`,
which depends on the installed font, is an abstract parameter
`measure : ℚ → String → ℚ` taking the current font size and the text.
Pointer handlers are modelled in canvas pixel space, i.e. after the
`getCanvasCoordinates` client-space conversion, which is where every claim
about them is phrased.
-/

namespace MemeHub

/-- Which text overlay a drag session targets (`draggingText` values
`'top' | 'bottom'` in the source). -/
inductive DragTarget where
  | top
  | bottom
deriving DecidableEq

/-- A decoded raster image: `image.width` / `image.height` in the source. -/
structure RasterImage where
  width : ℚ
  height : ℚ
deriving DecidableEq

/-- A normalized text anchor `{ rx, ry }` (fractions of the canvas size). -/
structure Pos where
  rx : ℚ
  ry : ℚ
deriving DecidableEq

/-- One drawing operation issued to the 2D context.  Enough of each call's
arguments are recorded to distinguish renders that differ in geometry, text,
font size, stroke width or fill color. -/
inductive DrawCmd where
  | clearRect (w h : ℚ)
  | drawImage (img : RasterImage) (w h : ℚ)
  | strokeText (s : String) (x y : ℚ) (fontSizePx lineWidth : ℚ)
  | fillText (s : String) (x y : ℚ) (fontSizePx : ℚ) (color : String)
deriving DecidableEq

/-- The compositor's mutable module-level state from src/index.tsx
(lines 36-52) together with the canvas element's pixel dimensions and
contents. -/
structure State where
  image : Option RasterImage
  topText : String
  bottomText : String
  fontSize : ℚ
  textColor : String
  topTextPosition : Option Pos
  bottomTextPosition : Option Pos
  isDragging : Bool
  draggingText : Option DragTarget
  dragStartX : ℚ
  dragStartY : ℚ
  canvasWidth : ℚ
  canvasHeight : ℚ
  surface : List DrawCmd
deriving DecidableEq

/-- Initial value of `fontSize` (src/index.tsx line 43). -/
def defaultFontSize : ℚ := 40

/-- Initial value of `textColor` (src/index.tsx line 44). -/
def defaultTextColor : String := "#ffffff"

/-- Model of JS `String.prototype.toUpperCase` restricted to ASCII. -/
def jsToUpper (t : String) : String :=
  ⟨t.data.map Char.toUpper⟩

/-- Model of JS `String.prototype.trim` restricted to ASCII whitespace. -/
def jsTrim (t : String) : String :=
  ⟨((t.data.dropWhile Char.isWhitespace).reverse.dropWhile Char.isWhitespace).reverse⟩

/-- Model of `resetTextPositions` (src/index.tsx lines 128-132): establishes the
default anchors, guarded by `!ctx || !image || !canvas.width ||
!canvas.height` (a zero dimension is falsy in JS). -/
def resetTextPositions (s : State) : State :=
  match s.image with
  | none => s
  | some _ =>
    if s.canvasWidth = 0 ∨ s.canvasHeight = 0 then s
    else
      { s with
        topTextPosition := some ⟨0.5, s.fontSize * 1.2 / s.canvasHeight⟩
        bottomTextPosition := some ⟨0.5, (s.canvasHeight - s.fontSize * 0.4) / s.canvasHeight⟩ }

/-- The draw-call sequence issued by the body of `redrawCanvas`
(src/index.tsx lines 147-162), given the already-resized state and the two
established anchors. -/
def drawSurface (s : State) (img : RasterImage) (tp bp : Pos) : List DrawCmd :=
  let topX := tp.rx * s.canvasWidth
  let topY := tp.ry * s.canvasHeight
  let bottomX := bp.rx * s.canvasWidth
  let bottomY := bp.ry * s.canvasHeight
  [ .clearRect s.canvasWidth s.canvasHeight,
    .drawImage img s.canvasWidth s.canvasHeight,
    .strokeText (jsToUpper s.topText) topX topY s.fontSize (s.fontSize / 15),
    .fillText (jsToUpper s.topText) topX topY s.fontSize s.textColor,
    .strokeText (jsToUpper s.bottomText) bottomX bottomY s.fontSize (s.fontSize / 15),
    .fillText (jsToUpper s.bottomText) bottomX bottomY s.fontSize s.textColor ]

/-- Model of `redrawCanvas` (src/index.tsx lines 134-163).  `containerWidth` is the
`canvas-container` element's `clientWidth`. -/
def redrawCanvas (containerWidth : ℚ) (s : State) : State :=
  match s.image with
  | none => s
  | some img =>
    let scale := min (containerWidth / img.width) (containerWidth / img.height)
    let s1 := { s with canvasWidth := img.width * scale, canvasHeight := img.height * scale }
    let s2 :=
      match s1.topTextPosition with
      | none => resetTextPositions s1
      | some _ => s1
    match s2.topTextPosition, s2.bottomTextPosition with
    | some tp, some bp => { s2 with surface := drawSurface s2 img tp bp }
    | _, _ => s2

/-- The loaded branch of `setBaseImage` (src/index.tsx lines 180-194): once
the new image's `onload` fires, `image` is replaced, `topTextPosition` is set
to `null`, and `redrawCanvas` runs. -/
def setBaseImage (img : RasterImage) (containerWidth : ℚ) (s : State) : State :=
  redrawCanvas containerWidth { s with image := some img, topTextPosition := none }

/-- The `setBaseImage(null)` branch (src/index.tsx lines 195-203): drops the
image, clears the canvas and zeroes its dimensions. -/
def clearBaseImage (s : State) : State :=
  { s with image := none, surface := [], canvasWidth := 0, canvasHeight := 0 }

/-- Model of `isMouseOverText` (src/index.tsx lines 290-302). -/
def isMouseOverText (measure : ℚ → String → ℚ) (s : State)
    (mouseX mouseY : ℚ) (text : String) (textRelPos : Option Pos) : Bool :=
  match textRelPos with
  | none => false
  | some p =>
    if jsTrim text = "" then false
    else
      let x := p.rx * s.canvasWidth
      let y := p.ry * s.canvasHeight
      let textWidth := measure s.fontSize (jsToUpper text)
      let textHeight := s.fontSize
      let textLeft := x - textWidth / 2
      let textRight := x + textWidth / 2
      let textTop := y - textHeight
      let textBottom := y + textHeight * 0.2
      decide (textLeft ≤ mouseX ∧ mouseX ≤ textRight ∧ textTop ≤ mouseY ∧ mouseY ≤ textBottom)

/-- Model of `handleDragStart` (src/index.tsx lines 895-910), in canvas pixel space. -/
def handleDragStart (measure : ℚ → String → ℚ) (mouseX mouseY : ℚ) (s : State) : State :=
  match s.topTextPosition, s.bottomTextPosition with
  | some _, some _ =>
    if isMouseOverText measure s mouseX mouseY s.topText s.topTextPosition then
      { s with isDragging := true, draggingText := some .top,
               dragStartX := mouseX, dragStartY := mouseY }
    else if isMouseOverText measure s mouseX mouseY s.bottomText s.bottomTextPosition then
      { s with isDragging := true, draggingText := some .bottom,
               dragStartX := mouseX, dragStartY := mouseY }
    else s
  | _, _ => s

/-- Model of `handleDragMove` (src/index.tsx lines 912-934), in canvas pixel space.
The cursor-style update is presentation-only and is not part of the state. -/
def handleDragMove (containerWidth : ℚ) (mouseX mouseY : ℚ) (s : State) : State :=
  match s.isDragging, s.topTextPosition, s.bottomTextPosition with
  | false, _, _ => s
  | _, none, _ => s
  | _, _, none => s
  | true, some _, some _ =>
    let dx := mouseX - s.dragStartX
    let dy := mouseY - s.dragStartY
    let s1 :=
      match s.draggingText with
      | some .top =>
        match s.topTextPosition with
        | some p =>
          { s with topTextPosition := some ⟨p.rx + dx / s.canvasWidth, p.ry + dy / s.canvasHeight⟩ }
        | none => s
      | some .bottom =>
        match s.bottomTextPosition with
        | some p =>
          { s with bottomTextPosition := some ⟨p.rx + dx / s.canvasWidth, p.ry + dy / s.canvasHeight⟩ }
        | none => s
      | none => s
    redrawCanvas containerWidth { s1 with dragStartX := mouseX, dragStartY := mouseY }

/-- Model of `handleDragEnd` (src/index.tsx lines 936-942). -/
def handleDragEnd (s : State) : State :=
  if s.isDragging then { s with isDragging := false, draggingText := none } else s

/-- Model of `triggerMemeDownload` (src/index.tsx lines 304-316): `none` models the
`false` return ("nothing to export"); otherwise the current canvas contents
are PNG-encoded (`canvas.toDataURL`, modelled by the abstract `encodePng`)
and handed to the download anchor. -/
def triggerMemeDownload (encodePng : List DrawCmd → List ℕ) (s : State) :
    Option (List ℕ) :=
  match s.image with
  | none => none
  | some _ => some (encodePng s.surface)

/-- The compositor-state effect of the `remixBtn` click handler
(src/index.tsx lines 866-882): `setBaseImage(null)` followed by clearing both
texts and both anchors.  The handler never assigns `fontSize` or
`textColor`. -/
def remix (s : State) : State :=
  let s1 := clearBaseImage s
  { s1 with topText := "", bottomText := "",
            topTextPosition := none, bottomTextPosition := none }

/-- The absolute x pixel position at which an established top anchor is drawn
(`topX = topTextPosition.rx * canvas.width`, src/index.tsx line 155). -/
def renderedTopX (s : State) : Option ℚ :=
  s.topTextPosition.map fun p => p.rx * s.canvasWidth

/-- The spec's wording of the hit-test bounding box (§4.2): horizontally the
anchor's absolute position ± half the measured uppercased text width,
vertically from `anchorY - fontSizePx` down to `anchorY + fontSizePx*0.2`,
with inclusive comparisons. -/
def specHitBox (measure : ℚ → String → ℚ) (s : State)
    (mouseX mouseY : ℚ) (text : String) (p : Pos) : Prop :=
  p.rx * s.canvasWidth - measure s.fontSize (jsToUpper text) / 2 ≤ mouseX ∧
  mouseX ≤ p.rx * s.canvasWidth + measure s.fontSize (jsToUpper text) / 2 ∧
  p.ry * s.canvasHeight - s.fontSize ≤ mouseY ∧
  mouseY ≤ p.ry * s.canvasHeight + s.fontSize * 0.2

instance (measure : ℚ → String → ℚ) (s : State) (mouseX mouseY : ℚ)
    (text : String) (p : Pos) :
    Decidable (specHitBox measure s mouseX mouseY text p) := by
  unfold specHitBox
  exact inferInstance

/-- A sample base state used by concrete witnesses: a 400×400 image shown on
a 400×400 canvas with established anchors. -/
def demoState : State where
  image := some ⟨400, 400⟩
  topText := "A"
  bottomText := "B"
  fontSize := 40
  textColor := "#ffffff"
  topTextPosition := some ⟨0.5, 0.1⟩
  bottomTextPosition := some ⟨0.5, 0.9⟩
  isDragging := false
  draggingText := none
  dragStartX := 0
  dragStartY := 0
  canvasWidth := 400
  canvasHeight := 400
  surface := []

/-- Lemma: `resetTextPositions` touches only the two anchors: every other state
component is preserved. -/
theorem resetTextPositions_fixed (s : State) :
    (resetTextPositions s).canvasWidth = s.canvasWidth ∧
    (resetTextPositions s).canvasHeight = s.canvasHeight ∧
    (resetTextPositions s).image = s.image ∧
    (resetTextPositions s).fontSize = s.fontSize ∧
    (resetTextPositions s).topText = s.topText ∧
    (resetTextPositions s).bottomText = s.bottomText ∧
    (resetTextPositions s).textColor = s.textColor ∧
    (resetTextPositions s).isDragging = s.isDragging ∧
    (resetTextPositions s).draggingText = s.draggingText ∧
    (resetTextPositions s).dragStartX = s.dragStartX ∧
    (resetTextPositions s).dragStartY = s.dragStartY ∧
    (resetTextPositions s).surface = s.surface := by
  unfold resetTextPositions
  rcases himg : s.image with _ | img <;> simp [himg]
  split <;> simp_all

/-- Lemma: `redrawCanvas` never modifies the image, the texts, the styles or the
drag-session bookkeeping. -/
theorem redrawCanvas_fixed (cw : ℚ) (s : State) :
    (redrawCanvas cw s).image = s.image ∧
    (redrawCanvas cw s).topText = s.topText ∧
    (redrawCanvas cw s).bottomText = s.bottomText ∧
    (redrawCanvas cw s).fontSize = s.fontSize ∧
    (redrawCanvas cw s).textColor = s.textColor ∧
    (redrawCanvas cw s).isDragging = s.isDragging ∧
    (redrawCanvas cw s).draggingText = s.draggingText ∧
    (redrawCanvas cw s).dragStartX = s.dragStartX ∧
    (redrawCanvas cw s).dragStartY = s.dragStartY := by
  unfold redrawCanvas resetTextPositions
  rcases himg : s.image with _ | img <;> simp [himg]
  rcases htp : s.topTextPosition with _ | p <;> simp [htp] <;> split <;> simp_all <;>
    split <;> simp_all

/-- Lemma: `redrawCanvas` sets the canvas dimensions from the image and the
container width before anything else, so they hold in the final state. -/
theorem redrawCanvas_dims (cw : ℚ) (s : State) (img : RasterImage)
    (himg : s.image = some img) :
    (redrawCanvas cw s).canvasWidth
      = img.width * min (cw / img.width) (cw / img.height) ∧
    (redrawCanvas cw s).canvasHeight
      = img.height * min (cw / img.width) (cw / img.height) := by
  unfold redrawCanvas resetTextPositions
  simp [himg]
  rcases htp : s.topTextPosition with _ | p <;> simp [htp] <;> split <;> simp_all <;>
    split <;> simp_all

/-- An established top anchor survives `redrawCanvas` untouched (no reset
happens), and the bottom anchor is carried over unchanged as well. -/
theorem redrawCanvas_pos_some (cw : ℚ) (s : State) (p : Pos)
    (hp : s.topTextPosition = some p) :
    (redrawCanvas cw s).topTextPosition = some p ∧
    (redrawCanvas cw s).bottomTextPosition = s.bottomTextPosition := by
  unfold redrawCanvas
  rcases himg : s.image with _ | img <;> simp [himg, hp]
  split <;> simp_all

/-- A base state holding a non-square 800×400 image, used to witness the
aspect-ratio claim. -/
def wideState : State :=
  { demoState with image := some ⟨800, 400⟩ }

/-- C1: for every loaded base image and surface width hint, `redrawCanvas`
computes `scale = min(hint / image.width, hint / image.height)`, sets the
canvas pixel dimensions to `image.width * scale` and `image.height * scale`,
and consequently the canvas keeps the image's aspect ratio:
`canvasWidth / canvasHeight = image.width / image.height`. -/
theorem redrawCanvas_scale_aspect (s : State) (img : RasterImage) (cw : ℚ)
    (himg : s.image = some img) (hw : 0 < img.width) (hh : 0 < img.height)
    (hcw : 0 < cw) :
    (redrawCanvas cw s).canvasWidth
      = img.width * min (cw / img.width) (cw / img.height) ∧
    (redrawCanvas cw s).canvasHeight
      = img.height * min (cw / img.width) (cw / img.height) ∧
    (redrawCanvas cw s).canvasWidth / (redrawCanvas cw s).canvasHeight
      = img.width / img.height := by
  obtain ⟨h1, h2⟩ := redrawCanvas_dims cw s img himg
  refine ⟨h1, h2, ?_⟩
  have hscale : (0 : ℚ) < min (cw / img.width) (cw / img.height) :=
    lt_min (div_pos hcw hw) (div_pos hcw hh)
  rw [h1, h2, mul_div_mul_right _ _ (ne_of_gt hscale)]

/-- Witness for C1 at the spec's concrete instance: an 800×400 image with
surface width hint 400 yields a 400×200 canvas whose sides are in the ratio
800/400. -/
theorem redrawCanvas_scale_aspect_witness :
    (redrawCanvas 400 wideState).canvasWidth
      = 800 * min ((400 : ℚ) / 800) (400 / 400) ∧
    (redrawCanvas 400 wideState).canvasHeight
      = 400 * min ((400 : ℚ) / 800) (400 / 400) ∧
    (redrawCanvas 400 wideState).canvasWidth
        / (redrawCanvas 400 wideState).canvasHeight
      = 800 / 400 := by
  exact redrawCanvas_scale_aspect wideState ⟨800, 400⟩ 400 rfl (by norm_num)
    (by norm_num) (by norm_num)

/-- C6: export fails, returning a failure indicator rather than crashing or
producing an image, exactly when no base image is loaded; with an image
loaded it returns the encoding of the current canvas contents. -/
theorem triggerMemeDownload_spec (encodePng : List DrawCmd → List ℕ) (s : State) :
    (triggerMemeDownload encodePng s = none ↔ s.image = none) ∧
    (∀ img, s.image = some img →
      triggerMemeDownload encodePng s = some (encodePng s.surface)) := by
  unfold triggerMemeDownload
  rcases himg : s.image with _ | img <;> simp [himg]

/-- Witness for C6: a loaded compositor exports the encoded surface, and a
compositor whose image was removed reports failure. -/
theorem triggerMemeDownload_spec_witness :
    triggerMemeDownload (fun _ => [0]) demoState
      = some ((fun _ => ([0] : List ℕ)) demoState.surface) ∧
    triggerMemeDownload (fun _ => [0]) (clearBaseImage demoState) = none := by
  constructor
  · exact (triggerMemeDownload_spec (fun _ => [0]) demoState).2 ⟨400, 400⟩ rfl
  · exact (triggerMemeDownload_spec (fun _ => [0]) (clearBaseImage demoState)).1.mpr rfl

/-- A state whose style controls were moved away from their defaults. -/
def styledState : State :=
  { demoState with fontSize := 60, textColor := "#123456" }

/-- Counterexample to C7 as stated: the remix handler does not restore the
default font size or text color — starting from `fontSize = 60` and
`textColor = "#123456"`, both survive the remix reset. -/
theorem remix_keeps_style_cex :
    (remix styledState).fontSize ≠ defaultFontSize ∧
    (remix styledState).textColor ≠ defaultTextColor := by
  constructor
  · norm_num [remix, clearBaseImage, styledState, demoState, defaultFontSize]
  · simp only [remix, clearBaseImage, styledState, demoState, defaultTextColor]
    decide

/-- C7 (amended): the remix reset clears the compositor to no base image,
empty top and bottom text and no anchors, but leaves the font size and the
text color at their current values instead of restoring the defaults. -/
theorem remix_clears (s : State) :
    (remix s).image = none ∧
    (remix s).topText = "" ∧
    (remix s).bottomText = "" ∧
    (remix s).topTextPosition = none ∧
    (remix s).bottomTextPosition = none ∧
    (remix s).canvasWidth = 0 ∧
    (remix s).canvasHeight = 0 ∧
    (remix s).surface = [] ∧
    (remix s).fontSize = s.fontSize ∧
    (remix s).textColor = s.textColor := by
  simp [remix, clearBaseImage]

/-- A state whose anchors were dragged away from the defaults, used to show
that loading a new base image discards prior drag state. -/
def draggedState : State :=
  { demoState with topTextPosition := some ⟨0.9, 0.7⟩,
                   bottomTextPosition := some ⟨0.2, 0.3⟩ }

/-- C2: the first render after a new base image is set initializes both
anchors to the default formula — Top at `rx = 0.5,
ry = fontSize*1.2/canvasHeight`, Bottom at `rx = 0.5,
ry = (canvasHeight - fontSize*0.4)/canvasHeight` — for any prior state, so
replacing the base image after any sequence of drags resets both anchors and
discards the dragged positions. -/
theorem setBaseImage_resets_anchors (s : State) (img : RasterImage) (cw : ℚ)
    (hw : 0 < img.width) (hh : 0 < img.height) (hcw : 0 < cw) :
    (setBaseImage img cw s).canvasHeight
      = img.height * min (cw / img.width) (cw / img.height) ∧
    (setBaseImage img cw s).topTextPosition
      = some ⟨0.5, s.fontSize * 1.2 / (setBaseImage img cw s).canvasHeight⟩ ∧
    (setBaseImage img cw s).bottomTextPosition
      = some ⟨0.5, ((setBaseImage img cw s).canvasHeight - s.fontSize * 0.4)
          / (setBaseImage img cw s).canvasHeight⟩ := by
  have hscale : (0 : ℚ) < min (cw / img.width) (cw / img.height) :=
    lt_min (div_pos hcw hw) (div_pos hcw hh)
  have hW : img.width * min (cw / img.width) (cw / img.height) ≠ 0 :=
    ne_of_gt (mul_pos hw hscale)
  have hH : img.height * min (cw / img.width) (cw / img.height) ≠ 0 :=
    ne_of_gt (mul_pos hh hscale)
  unfold setBaseImage redrawCanvas resetTextPositions
  simp [hW, hH]

/-- Witness for C2: a 400×400 image loaded at container width 400 over a
dragged state re-establishes both default anchors. -/
theorem setBaseImage_resets_anchors_witness :
    (setBaseImage ⟨400, 400⟩ 400 draggedState).canvasHeight
      = 400 * min ((400 : ℚ) / 400) (400 / 400) ∧
    (setBaseImage ⟨400, 400⟩ 400 draggedState).topTextPosition
      = some ⟨0.5, draggedState.fontSize * 1.2
          / (setBaseImage ⟨400, 400⟩ 400 draggedState).canvasHeight⟩ ∧
    (setBaseImage ⟨400, 400⟩ 400 draggedState).bottomTextPosition
      = some ⟨0.5, ((setBaseImage ⟨400, 400⟩ 400 draggedState).canvasHeight
            - draggedState.fontSize * 0.4)
          / (setBaseImage ⟨400, 400⟩ 400 draggedState).canvasHeight⟩ :=
  setBaseImage_resets_anchors draggedState ⟨400, 400⟩ 400 (by norm_num)
    (by norm_num) (by norm_num)

/-- C3: while a drag session is active, a pointer-move adds the pixel delta
from the last recorded reference point divided by the current canvas width
to the dragged overlay's `rx` (and divided by the canvas height to its
`ry`) — whichever of Top or Bottom is being dragged — leaves the other
overlay's anchor unchanged, and updates the reference point to the current
pointer position. -/
theorem handleDragMove_accumulates (s : State) (cw mouseX mouseY : ℚ) (p q : Pos)
    (hd : s.isDragging = true)
    (hp : s.topTextPosition = some p) (hq : s.bottomTextPosition = some q) :
    (s.draggingText = some .top →
      (handleDragMove cw mouseX mouseY s).topTextPosition
        = some ⟨p.rx + (mouseX - s.dragStartX) / s.canvasWidth,
                p.ry + (mouseY - s.dragStartY) / s.canvasHeight⟩ ∧
      (handleDragMove cw mouseX mouseY s).bottomTextPosition = some q) ∧
    (s.draggingText = some .bottom →
      (handleDragMove cw mouseX mouseY s).bottomTextPosition
        = some ⟨q.rx + (mouseX - s.dragStartX) / s.canvasWidth,
                q.ry + (mouseY - s.dragStartY) / s.canvasHeight⟩ ∧
      (handleDragMove cw mouseX mouseY s).topTextPosition = some p) ∧
    (handleDragMove cw mouseX mouseY s).dragStartX = mouseX ∧
    (handleDragMove cw mouseX mouseY s).dragStartY = mouseY := by
  have hds : ∃ L : State, handleDragMove cw mouseX mouseY s = redrawCanvas cw L ∧
      L.dragStartX = mouseX ∧ L.dragStartY = mouseY := by
    rcases hdt : s.draggingText with _ | t
    · refine ⟨{ s with dragStartX := mouseX, dragStartY := mouseY }, ?_, rfl, rfl⟩
      unfold handleDragMove
      simp only [hd, hdt, hp, hq]
    · cases t
      · refine ⟨{ s with
            topTextPosition :=
              some ⟨p.rx + (mouseX - s.dragStartX) / s.canvasWidth,
                    p.ry + (mouseY - s.dragStartY) / s.canvasHeight⟩,
            dragStartX := mouseX, dragStartY := mouseY }, ?_, rfl, rfl⟩
        unfold handleDragMove
        simp only [hd, hdt, hp, hq]
      · refine ⟨{ s with
            bottomTextPosition :=
              some ⟨q.rx + (mouseX - s.dragStartX) / s.canvasWidth,
                    q.ry + (mouseY - s.dragStartY) / s.canvasHeight⟩,
            dragStartX := mouseX, dragStartY := mouseY }, ?_, rfl, rfl⟩
        unfold handleDragMove
        simp only [hd, hdt, hp, hq]
  obtain ⟨L, hL, hLx, hLy⟩ := hds
  refine ⟨?_, ?_, ?_, ?_⟩
  · intro ht
    have key : handleDragMove cw mouseX mouseY s
        = redrawCanvas cw
            { s with
              topTextPosition :=
                some ⟨p.rx + (mouseX - s.dragStartX) / s.canvasWidth,
                      p.ry + (mouseY - s.dragStartY) / s.canvasHeight⟩,
              dragStartX := mouseX, dragStartY := mouseY } := by
      unfold handleDragMove
      simp only [hd, ht, hp, hq]
    rw [key]
    refine ⟨(redrawCanvas_pos_some cw _ _ (by simp)).1, ?_⟩
    rw [(redrawCanvas_pos_some cw _
      ⟨p.rx + (mouseX - s.dragStartX) / s.canvasWidth,
       p.ry + (mouseY - s.dragStartY) / s.canvasHeight⟩ (by simp)).2]
    simp [hq]
  · intro ht
    have key : handleDragMove cw mouseX mouseY s
        = redrawCanvas cw
            { s with
              bottomTextPosition :=
                some ⟨q.rx + (mouseX - s.dragStartX) / s.canvasWidth,
                      q.ry + (mouseY - s.dragStartY) / s.canvasHeight⟩,
              dragStartX := mouseX, dragStartY := mouseY } := by
      unfold handleDragMove
      simp only [hd, ht, hp, hq]
    rw [key]
    constructor
    · rw [(redrawCanvas_pos_some cw _ p (by simp [hp])).2]
    · exact (redrawCanvas_pos_some cw _ p (by simp [hp])).1
  · rw [hL, (redrawCanvas_fixed cw L).2.2.2.2.2.2.2.1]
    exact hLx
  · rw [hL, (redrawCanvas_fixed cw L).2.2.2.2.2.2.2.2]
    exact hLy

/-- An active drag session on the Top overlay anchored at `(0.5, 0.1)` on a
400×400 canvas, with reference point `(100, 100)`. -/
def dragState : State :=
  { demoState with topTextPosition := some ⟨0.5, 0.1⟩, isDragging := true,
                   draggingText := some .top, dragStartX := 100, dragStartY := 100 }

/-- An active drag session on the Bottom overlay with reference point
`(100, 100)` on the 400×400 demo canvas. -/
def dragBottomState : State :=
  { demoState with isDragging := true, draggingText := some .bottom,
                   dragStartX := 100, dragStartY := 100 }

/-- Witness for C3 at the spec's concrete instance: two successive pointer
deltas of `(+10px, +0px)` on the 400×400 canvas move the dragged Top
overlay's `rx` from `0.5` to `0.5 + 20/400 = 0.55`; and a Bottom-overlay
drag with delta `(+10px, +20px)` moves its anchor from `(0.5, 0.9)` to
`(21/40, 19/20)`. -/
theorem handleDragMove_accumulates_witness :
    (handleDragMove 400 120 100 (handleDragMove 400 110 100 dragState)).topTextPosition
      = some ⟨0.55, 0.1⟩ ∧
    (handleDragMove 400 110 120 dragBottomState).bottomTextPosition
      = some ⟨21/40, 19/20⟩ := by
  constructor
  · have h1 := handleDragMove_accumulates dragState 400 110 100 ⟨0.5, 0.1⟩ ⟨0.5, 0.9⟩
      rfl rfl rfl
    have hA : (handleDragMove 400 110 100 dragState).isDragging = true := by
      norm_num [handleDragMove, redrawCanvas, dragState, demoState, min_def]
    have hB : (handleDragMove 400 110 100 dragState).draggingText = some .top := by
      norm_num [handleDragMove, redrawCanvas, dragState, demoState, min_def]
    have hC : (handleDragMove 400 110 100 dragState).topTextPosition
        = some ⟨21/40, 1/10⟩ := by
      rw [(h1.1 rfl).1]
      norm_num [dragState, demoState]
    have hD : (handleDragMove 400 110 100 dragState).bottomTextPosition
        = some ⟨0.5, 0.9⟩ := (h1.1 rfl).2
    have hX : (handleDragMove 400 110 100 dragState).dragStartX = 110 := h1.2.2.1
    have hY : (handleDragMove 400 110 100 dragState).dragStartY = 100 := h1.2.2.2
    have hW : (handleDragMove 400 110 100 dragState).canvasWidth = 400 := by
      norm_num [handleDragMove, redrawCanvas, dragState, demoState, min_def]
    have hH : (handleDragMove 400 110 100 dragState).canvasHeight = 400 := by
      norm_num [handleDragMove, redrawCanvas, dragState, demoState, min_def]
    have h2 := handleDragMove_accumulates (handleDragMove 400 110 100 dragState)
      400 120 100 ⟨21/40, 1/10⟩ ⟨0.5, 0.9⟩ hA hC hD
    rw [(h2.1 hB).1, hX, hY, hW, hH]
    norm_num
  · have h3 := handleDragMove_accumulates dragBottomState 400 110 120
      ⟨0.5, 0.1⟩ ⟨0.5, 0.9⟩ rfl rfl rfl
    rw [(h3.2.1 rfl).1]
    norm_num [dragBottomState, demoState]

/-- A state whose Top overlay content is a single space: non-empty, but
trimming to the empty string. -/
def whitespaceState : State :=
  { demoState with topText := " ", topTextPosition := some ⟨0.5, 0.5⟩ }

/-- Counterexample to C4 as stated: the Top overlay content `" "` is
non-empty and its anchor is established, and the pointer `(200, 200)` lies
inside the spec's bounding box, yet the hit-test returns false — the code
additionally requires the content to be non-empty after trimming
(`text.trim() === ''` returns false). -/
theorem isMouseOverText_whitespace_cex :
    whitespaceState.topText ≠ "" ∧
    whitespaceState.topTextPosition = some ⟨0.5, 0.5⟩ ∧
    specHitBox (fun _ _ => 100) whitespaceState 200 200 whitespaceState.topText
      ⟨0.5, 0.5⟩ ∧
    isMouseOverText (fun _ _ => 100) whitespaceState 200 200
      whitespaceState.topText whitespaceState.topTextPosition = false := by
  refine ⟨by decide, rfl, ?_, ?_⟩
  · norm_num [specHitBox, whitespaceState, demoState]
  · norm_num [isMouseOverText, whitespaceState, demoState]
    decide

/-- C4 (amended): for every overlay whose content is non-empty after
trimming whitespace and whose anchor is established, the hit-test returns
true exactly when the pointer lies inside the axis-aligned box horizontally
centered on the anchor's absolute position ± half the measured uppercased
text width and vertically spanning `anchorY - fontSizePx` to
`anchorY + fontSizePx*0.2`, with inclusive boundary comparisons; it returns
false whenever the trimmed content is empty (including whitespace-only
content) or no anchor has been established. -/
theorem isMouseOverText_correct (measure : ℚ → String → ℚ) (s : State)
    (mouseX mouseY : ℚ) (text : String) :
    (∀ p, jsTrim text ≠ "" →
      (isMouseOverText measure s mouseX mouseY text (some p) = true ↔
        specHitBox measure s mouseX mouseY text p)) ∧
    (∀ tp, jsTrim text = "" →
      isMouseOverText measure s mouseX mouseY text tp = false) ∧
    isMouseOverText measure s mouseX mouseY text none = false := by
  refine ⟨?_, ?_, rfl⟩
  · intro p hne
    unfold isMouseOverText specHitBox
    simp [hne]
  · intro tp he
    unfold isMouseOverText
    rcases tp with _ | p <;> simp [he]

/-- Witness for C4 (amended): on the demo state the pointer `(200, 44)` is
inside the Top overlay's box and the hit-test accepts it. -/
theorem isMouseOverText_correct_witness :
    isMouseOverText (fun _ _ => 100) demoState 200 44 "A" (some ⟨0.5, 0.1⟩)
      = true := by
  refine ((isMouseOverText_correct (fun _ _ => 100) demoState 200 44 "A").1
    ⟨0.5, 0.1⟩ (by decide)).mpr ?_
  norm_num [specHitBox, demoState]

/-- C5: on pointer-down the Top overlay is hit-tested before the Bottom one
and the first match wins — whenever the pointer lies in both overlays'
boxes, the resulting drag session targets Top and records the pointer as
the drag reference point. -/
theorem handleDragStart_top_priority (measure : ℚ → String → ℚ)
    (mouseX mouseY : ℚ) (s : State) (p q : Pos)
    (hp : s.topTextPosition = some p) (hq : s.bottomTextPosition = some q)
    (htop : isMouseOverText measure s mouseX mouseY s.topText
      s.topTextPosition = true)
    (hbot : isMouseOverText measure s mouseX mouseY s.bottomText
      s.bottomTextPosition = true) :
    (handleDragStart measure mouseX mouseY s).draggingText = some .top ∧
    (handleDragStart measure mouseX mouseY s).isDragging = true ∧
    (handleDragStart measure mouseX mouseY s).dragStartX = mouseX ∧
    (handleDragStart measure mouseX mouseY s).dragStartY = mouseY := by
  unfold handleDragStart
  rw [hp] at htop
  simp [hp, hq, htop]

/-- A state whose Bottom anchor was dragged onto the Top anchor, so both
bounding boxes contain the same points. -/
def overlapState : State :=
  { demoState with bottomTextPosition := some ⟨0.5, 0.1⟩ }

/-- Witness for C5: at pointer `(200, 44)` both overlapping overlays are
hit, and the drag session targets Top. -/
theorem handleDragStart_top_priority_witness :
    (handleDragStart (fun _ _ => 100) 200 44 overlapState).draggingText
      = some .top ∧
    (handleDragStart (fun _ _ => 100) 200 44 overlapState).isDragging = true ∧
    (handleDragStart (fun _ _ => 100) 200 44 overlapState).dragStartX = 200 ∧
    (handleDragStart (fun _ _ => 100) 200 44 overlapState).dragStartY = 44 := by
  refine handleDragStart_top_priority (fun _ _ => 100) 200 44 overlapState
    ⟨0.5, 0.1⟩ ⟨0.5, 0.1⟩ rfl rfl ?_ ?_
  · norm_num [isMouseOverText, overlapState, demoState]
    decide
  · norm_num [isMouseOverText, overlapState, demoState]
    decide

/-- Counterexample to C8 as stated: with a loaded image, established
anchors and container width 0, `redrawCanvas` is not a state-preserving
no-op — it changes the canvas width (to zero) and rewrites the surface
(draw calls are still issued against the zero-sized canvas). -/
theorem redrawCanvas_zero_cex :
    (redrawCanvas 0 demoState).canvasWidth ≠ demoState.canvasWidth ∧
    (redrawCanvas 0 demoState).surface ≠ demoState.surface := by
  constructor
  · norm_num [redrawCanvas, demoState, min_def]
  · norm_num [redrawCanvas, resetTextPositions, drawSurface, demoState, min_def]
    exact List.cons_ne_nil _ _

/-- C8 (amended): a render with no loaded image is a complete no-op; a
render at container width 0 with a loaded image never crashes and leaves the
anchors, the texts, the font size and the text color unchanged, but it does
set the canvas pixel dimensions to zero (and, when anchors are established,
still issues draw commands against the zero-sized surface). -/
theorem redrawCanvas_degenerate (s : State) :
    (s.image = none → redrawCanvas 0 s = s) ∧
    (∀ img, s.image = some img →
      (redrawCanvas 0 s).canvasWidth = 0 ∧
      (redrawCanvas 0 s).canvasHeight = 0 ∧
      (redrawCanvas 0 s).topTextPosition = s.topTextPosition ∧
      (redrawCanvas 0 s).bottomTextPosition = s.bottomTextPosition ∧
      (redrawCanvas 0 s).topText = s.topText ∧
      (redrawCanvas 0 s).bottomText = s.bottomText ∧
      (redrawCanvas 0 s).fontSize = s.fontSize ∧
      (redrawCanvas 0 s).textColor = s.textColor) := by
  constructor
  · intro h
    unfold redrawCanvas
    rw [h]
  · intro img himg
    have hd := redrawCanvas_dims 0 s img himg
    have hfix := redrawCanvas_fixed 0 s
    have hzw : img.width * min ((0 : ℚ) / img.width) (0 / img.height) = 0 := by
      simp
    have hzh : img.height * min ((0 : ℚ) / img.width) (0 / img.height) = 0 := by
      simp
    have hpos : (redrawCanvas 0 s).topTextPosition = s.topTextPosition ∧
        (redrawCanvas 0 s).bottomTextPosition = s.bottomTextPosition := by
      rcases htp : s.topTextPosition with _ | p
      · unfold redrawCanvas resetTextPositions
        simp [himg, htp]
      · exact ⟨(redrawCanvas_pos_some 0 s p htp).1,
          (redrawCanvas_pos_some 0 s p htp).2⟩
    exact ⟨hd.1.trans hzw, hd.2.trans hzh, hpos.1, hpos.2, hfix.2.1,
      hfix.2.2.1, hfix.2.2.2.1, hfix.2.2.2.2.1⟩

/-- Witness for C8 (amended): the no-image branch is the identity on a
cleared state, and on the demo state a zero-width render zeroes the canvas
and keeps the anchors. -/
theorem redrawCanvas_degenerate_witness :
    redrawCanvas 0 (clearBaseImage demoState) = clearBaseImage demoState ∧
    (redrawCanvas 0 demoState).canvasWidth = 0 ∧
    (redrawCanvas 0 demoState).topTextPosition = demoState.topTextPosition := by
  refine ⟨(redrawCanvas_degenerate (clearBaseImage demoState)).1 rfl, ?_, ?_⟩
  · exact ((redrawCanvas_degenerate demoState).2 ⟨400, 400⟩ rfl).1
  · exact ((redrawCanvas_degenerate demoState).2 ⟨400, 400⟩ rfl).2.2.1

/-- C9: a resize followed by a re-render never resets established anchors —
the normalized anchor survives both renders unchanged, and the absolute x
position at which the top text is drawn, divided by the canvas width, equals
`rx` after each render. -/
theorem resize_preserves_anchors (s : State) (cw1 cw2 : ℚ) (p : Pos)
    (hp : s.topTextPosition = some p) :
    (redrawCanvas cw1 s).topTextPosition = some p ∧
    (redrawCanvas cw2 (redrawCanvas cw1 s)).topTextPosition = some p ∧
    (redrawCanvas cw1 s).bottomTextPosition = s.bottomTextPosition ∧
    (redrawCanvas cw2 (redrawCanvas cw1 s)).bottomTextPosition
      = s.bottomTextPosition ∧
    (∀ x, renderedTopX (redrawCanvas cw1 s) = some x →
      (redrawCanvas cw1 s).canvasWidth ≠ 0 →
      x / (redrawCanvas cw1 s).canvasWidth = p.rx) ∧
    (∀ x, renderedTopX (redrawCanvas cw2 (redrawCanvas cw1 s)) = some x →
      (redrawCanvas cw2 (redrawCanvas cw1 s)).canvasWidth ≠ 0 →
      x / (redrawCanvas cw2 (redrawCanvas cw1 s)).canvasWidth = p.rx) := by
  have h1 := redrawCanvas_pos_some cw1 s p hp
  have h2 := redrawCanvas_pos_some cw2 (redrawCanvas cw1 s) p h1.1
  refine ⟨h1.1, h2.1, h1.2, h2.2.trans h1.2, ?_, ?_⟩
  · intro x hx hne
    rw [renderedTopX, h1.1] at hx
    simp at hx
    subst hx
    exact mul_div_cancel_right₀ _ hne
  · intro x hx hne
    rw [renderedTopX, h2.1] at hx
    simp at hx
    subst hx
    exact mul_div_cancel_right₀ _ hne

/-- Witness for C9 at the spec's concrete instance: anchor `(0.5, 0.1)`
rendered at container width 400 and re-rendered at 800 stays `(0.5, 0.1)`,
and the drawn x position over the width is `0.5` after the resize. -/
theorem resize_preserves_anchors_witness :
    (redrawCanvas 800 (redrawCanvas 400 demoState)).topTextPosition
      = some ⟨0.5, 0.1⟩ ∧
    (400 : ℚ) / (redrawCanvas 800 (redrawCanvas 400 demoState)).canvasWidth
      = 0.5 := by
  have h := resize_preserves_anchors demoState 400 800 ⟨0.5, 0.1⟩ rfl
  refine ⟨h.2.1, ?_⟩
  have hx : renderedTopX (redrawCanvas 800 (redrawCanvas 400 demoState))
      = some 400 := by
    rw [renderedTopX, h.2.1]
    have hw : (redrawCanvas 800 (redrawCanvas 400 demoState)).canvasWidth
        = 800 := by
      norm_num [redrawCanvas, demoState, min_def]
    rw [hw]
    norm_num
  have hw : (redrawCanvas 800 (redrawCanvas 400 demoState)).canvasWidth ≠ 0 := by
    norm_num [redrawCanvas, demoState, min_def]
  exact h.2.2.2.2.2 400 hx hw

/-- C10: an overlay whose content is non-empty but consists only of
whitespace is never hit — the hit-test returns false at every pointer
position — so a pointer-down can never start a drag session targeting it. -/
theorem whitespace_not_draggable (measure : ℚ → String → ℚ) (s : State)
    (mouseX mouseY : ℚ) :
    (s.topText ≠ "" → jsTrim s.topText = "" →
      isMouseOverText measure s mouseX mouseY s.topText s.topTextPosition
        = false ∧
      (handleDragStart measure mouseX mouseY s = s ∨
        (handleDragStart measure mouseX mouseY s).draggingText
          = some .bottom)) ∧
    (s.bottomText ≠ "" → jsTrim s.bottomText = "" →
      isMouseOverText measure s mouseX mouseY s.bottomText
        s.bottomTextPosition = false ∧
      (handleDragStart measure mouseX mouseY s = s ∨
        (handleDragStart measure mouseX mouseY s).draggingText
          = some .top)) := by
  constructor
  · intro hne hws
    have hfalse : isMouseOverText measure s mouseX mouseY s.topText
        s.topTextPosition = false := by
      unfold isMouseOverText
      rcases h : s.topTextPosition with _ | p <;> simp [h, hws]
    refine ⟨hfalse, ?_⟩
    unfold handleDragStart
    rcases htp : s.topTextPosition with _ | p
    · left
      simp [htp]
    · rcases hbp : s.bottomTextPosition with _ | q
      · left
        simp [htp, hbp]
      · rw [htp] at hfalse
        simp only [htp, hbp, hfalse, Bool.false_eq_true, if_false]
        split
        · right
          simp
        · left
          rfl
  · intro hne hws
    have hfalse : isMouseOverText measure s mouseX mouseY s.bottomText
        s.bottomTextPosition = false := by
      unfold isMouseOverText
      rcases h : s.bottomTextPosition with _ | p <;> simp [h, hws]
    refine ⟨hfalse, ?_⟩
    unfold handleDragStart
    rcases htp : s.topTextPosition with _ | p
    · left
      simp [htp]
    · rcases hbp : s.bottomTextPosition with _ | q
      · left
        simp [htp, hbp]
      · rw [hbp] at hfalse
        simp only [htp, hbp, hfalse, Bool.false_eq_true, if_false]
        split
        · right
          simp
        · left
          rfl

/-- A state whose Top overlay content is two spaces. -/
def wsTopState : State :=
  { demoState with topText := "  " }

/-- Witness for C10: the whitespace-only Top overlay is not hit at
`(200, 44)` (a point inside where its box would be) and a pointer-down
there cannot target it. -/
theorem whitespace_not_draggable_witness :
    isMouseOverText (fun _ _ => 100) wsTopState 200 44 wsTopState.topText
      wsTopState.topTextPosition = false ∧
    (handleDragStart (fun _ _ => 100) 200 44 wsTopState = wsTopState ∨
      (handleDragStart (fun _ _ => 100) 200 44 wsTopState).draggingText
        = some .bottom) :=
  (whitespace_not_draggable (fun _ _ => 100) wsTopState 200 44).1
    (by decide) (by decide)

end MemeHub
